import Mathlib

/-!
Verification of the deterministic prediction core of `horoscope_mailer.py`
(Telugu daily horoscope generator).  The Python source is shallowly embedded:

* `Date` models `datetime.date` (proleptic Gregorian calendar); `Date.toOrdinal`
  mirrors `date.toordinal()` and `Date.weekday` mirrors `date.weekday()`
  (Monday = 0).  `dateStr` mirrors `str(date)` (ISO `YYYY-MM-DD`, zero padded).
* `md5seed s` is `int(hashlib.md5(s.encode()).hexdigest()[:8], 16)`: a full
  executable MD5 over the UTF-8 bytes of `s` (our inputs are ASCII date
  strings, for which UTF-8 bytes coincide with code points), of which the
  first four digest bytes are read back as a big-endian integer.
* Python's `%` on `int` with a positive modulus returns a value in `[0, m)`,
  exactly `Int.emod`; Python list indexing `xs[i]` (with its negative-index
  wrap-around and `IndexError`) is `pyIdx`; `list.index` is `pyIndex`;
  `dict[k]` / `dict.get(k, d)` over the fixed tables is `List.lookup`.
* Fallible operations (`IndexError` / `KeyError` / `ValueError`) make the
  embedded functions return `Option`; `none` models a raised exception.
* `PanchangCalculator.get_moon_phase` compares `(days_diff % 30) / 30` as a
  Python float against the literals 0.03, 0.97, 0.22, 0.28, 0.25.  The float
  takes only the 30 values `k/30` (`0 ≤ k < 30`), all of which are at distance
  `> 2^-9` from every boundary literal, far above double rounding error, so
  exact rational arithmetic (`Rat`) decides every comparison identically.
-/

/-- A plain year/month/day value, as `datetime.date` (fields meaningful for
year 1..9999, month 1..12, day 1..days-in-month; all functions below are total
over arbitrary field values, defaulting out-of-range lookups like Python's
tables never hit). -/
structure Date where
  year : Nat
  month : Nat
  day : Nat
deriving DecidableEq, Repr

/-- Gregorian leap-year test, as `calendar.isleap` / CPython `datetime`. -/
def isLeap (y : Nat) : Bool := (y % 4 == 0 && y % 100 != 0) || y % 400 == 0

/-- Days in the year strictly before month `m` (CPython `_days_before_month`). -/
def daysBeforeMonth (y m : Nat) : Nat :=
  [0, 31, 59, 90, 120, 151, 181, 212, 243, 273, 304, 334].getD (m - 1) 0 +
    (if 2 < m ∧ isLeap y then 1 else 0)

/-- `date.toordinal()`: day 1 is 0001-01-01 of the proleptic Gregorian
calendar. -/
def Date.toOrdinal (d : Date) : Nat :=
  365 * (d.year - 1) + (d.year - 1) / 4 - (d.year - 1) / 100 + (d.year - 1) / 400 +
    daysBeforeMonth d.year d.month + d.day

/-- `date.weekday()`: Monday = 0 .. Sunday = 6 (0001-01-01 is a Monday). -/
def Date.weekday (d : Date) : Nat := (d.toOrdinal + 6) % 7

/-- Zero-padded decimal rendering (`"%0*d"`). -/
def padNum (w n : Nat) : String :=
  let s := toString n
  String.mk (List.replicate (w - s.length) '0') ++ s

/-- `str(date)`: ISO `YYYY-MM-DD` with zero padding. -/
def dateStr (d : Date) : String :=
  padNum 4 d.year ++ "-" ++ padNum 2 d.month ++ "-" ++ padNum 2 d.day

/-! ### MD5 (RFC 1321), executable over byte lists -/

/-- Left-rotation of a 32-bit word. -/
def rotl32 (x n : Nat) : Nat := ((x <<< n) ||| (x >>> (32 - n))) % 4294967296

/-- Bitwise complement within 32 bits. -/
def not32 (x : Nat) : Nat := 4294967295 ^^^ x

/-- The 64 MD5 sine-derived constants `K[i] = floor(2^32 * |sin(i+1)|)`. -/
def md5K : List Nat :=
  [0xd76aa478, 0xe8c7b756, 0x242070db, 0xc1bdceee,
   0xf57c0faf, 0x4787c62a, 0xa8304613, 0xfd469501,
   0x698098d8, 0x8b44f7af, 0xffff5bb1, 0x895cd7be,
   0x6b901122, 0xfd987193, 0xa679438e, 0x49b40821,
   0xf61e2562, 0xc040b340, 0x265e5a51, 0xe9b6c7aa,
   0xd62f105d, 0x02441453, 0xd8a1e681, 0xe7d3fbc8,
   0x21e1cde6, 0xc33707d6, 0xf4d50d87, 0x455a14ed,
   0xa9e3e905, 0xfcefa3f8, 0x676f02d9, 0x8d2a4c8a,
   0xfffa3942, 0x8771f681, 0x6d9d6122, 0xfde5380c,
   0xa4beea44, 0x4bdecfa9, 0xf6bb4b60, 0xbebfbc70,
   0x289b7ec6, 0xeaa127fa, 0xd4ef3085, 0x04881d05,
   0xd9d4d039, 0xe6db99e5, 0x1fa27cf8, 0xc4ac5665,
   0xf4292244, 0x432aff97, 0xab9423a7, 0xfc93a039,
   0x655b59c3, 0x8f0ccc92, 0xffeff47d, 0x85845dd1,
   0x6fa87e4f, 0xfe2ce6e0, 0xa3014314, 0x4e0811a1,
   0xf7537e82, 0xbd3af235, 0x2ad7d2bb, 0xeb86d391]

/-- The 64 per-round left-rotation amounts. -/
def md5S : List Nat :=
  [7, 12, 17, 22, 7, 12, 17, 22, 7, 12, 17, 22, 7, 12, 17, 22,
   5, 9, 14, 20, 5, 9, 14, 20, 5, 9, 14, 20, 5, 9, 14, 20,
   4, 11, 16, 23, 4, 11, 16, 23, 4, 11, 16, 23, 4, 11, 16, 23,
   6, 10, 15, 21, 6, 10, 15, 21, 6, 10, 15, 21, 6, 10, 15, 21]

/-- MD5 padding: a 0x80 byte, zeros to 56 mod 64, then the bit length as
eight little-endian bytes. -/
def md5Pad (msg : List Nat) : List Nat :=
  let bitLen := msg.length * 8 % 18446744073709551616
  let zeros := (56 - (msg.length + 1) % 64 + 64) % 64
  msg ++ [0x80] ++ List.replicate zeros 0 ++
    (List.range 8).map fun i => bitLen >>> (8 * i) % 256

/-- Split a byte list into 64-byte blocks (fuel-based structural recursion;
`fuel = l.length` always suffices since each step consumes 64 > 0 bytes). -/
def chunksAux : Nat → List Nat → List (List Nat)
  | 0, _ => []
  | _, [] => []
  | fuel + 1, l@(_ :: _) => l.take 64 :: chunksAux fuel (l.drop 64)

/-- Split a byte list into 64-byte blocks. -/
def chunks64 (l : List Nat) : List (List Nat) := chunksAux l.length l

/-- Read a byte list as little-endian 32-bit words. -/
def wordsLE : List Nat → List Nat
  | a :: b :: c :: d :: rest => (a + 256 * (b + 256 * (c + 256 * d))) :: wordsLE rest
  | _ => []

/-- One of the 64 MD5 rounds, acting on the state `(A, B, C, D)`. -/
def md5Round (M : List Nat) (st : Nat × Nat × Nat × Nat) (i : Nat) :
    Nat × Nat × Nat × Nat :=
  let (A, B, C, D) := st
  let (F, g) :=
    if i < 16 then ((B &&& C) ||| (not32 B &&& D), i)
    else if i < 32 then ((D &&& B) ||| (not32 D &&& C), (5 * i + 1) % 16)
    else if i < 48 then (B ^^^ C ^^^ D, (3 * i + 5) % 16)
    else (C ^^^ (B ||| not32 D), 7 * i % 16)
  let F := (F + A + md5K.getD i 0 + M.getD g 0) % 4294967296
  (D, (B + rotl32 F (md5S.getD i 0)) % 4294967296, B, C)

/-- Process one 64-byte block. -/
def md5Block (st : Nat × Nat × Nat × Nat) (block : List Nat) :
    Nat × Nat × Nat × Nat :=
  let M := wordsLE block
  let (A, B, C, D) := (List.range 64).foldl (md5Round M) st
  let (a0, b0, c0, d0) := st
  ((a0 + A) % 4294967296, (b0 + B) % 4294967296,
   (c0 + C) % 4294967296, (d0 + D) % 4294967296)

/-- MD5 of a byte list; the four 32-bit state words of the digest. -/
def md5Hash (msg : List Nat) : Nat × Nat × Nat × Nat :=
  (chunks64 (md5Pad msg)).foldl md5Block (0x67452301, 0xefcdab89, 0x98badcfe, 0x10325476)

/-- Byte-swap a 32-bit word: the digest serializes each state word
little-endian, and reading the first 8 hex characters back as an unsigned
integer is big-endian, so the two reorderings compose to a byte swap. -/
def byteswap32 (x : Nat) : Nat :=
  x % 256 * 16777216 + x / 256 % 256 * 65536 + x / 65536 % 256 * 256 + x / 16777216

/-- UTF-8 bytes of an ASCII string (code points below 128 encode as
themselves; every string hashed by the program is an ASCII date string). -/
def strBytes (s : String) : List Nat := s.data.map Char.toNat

/-- `int(hashlib.md5(s.encode()).hexdigest()[:8], 16)` — the deterministic
date seed of `horoscope_mailer.py` (lines 211 and 337). -/
def md5seed (s : String) : Nat := byteswap32 (md5Hash (strBytes s)).1

/-! ### Python container primitives -/

/-- Python list indexing `xs[i]`: negative indices wrap once by `+ len`;
out-of-range raises `IndexError` (`none`). -/
def pyIdx {α : Type} (xs : List α) (i : Int) : Option α :=
  let j := if i < 0 then i + xs.length else i
  if h : 0 ≤ j ∧ j < (xs.length : Int) then some (xs.get ⟨j.toNat, by omega⟩)
  else none

/-- Python `list.index(x)`: the first index holding `x`, `ValueError` (`none`)
when absent. -/
def pyIndex {α : Type} [BEq α] (xs : List α) (x : α) : Option Nat :=
  if xs.contains x then some (xs.indexOf x) else none

/-- Does `sub` occur at the start of `hay`? (over `BEq`, like Python `==`). -/
def startsWithSeq {α : Type} [BEq α] : List α → List α → Bool
  | [], _ => true
  | _ :: _, [] => false
  | a :: as, b :: bs => a == b && startsWithSeq as bs

/-- Helper for `strContains` on the underlying character lists. -/
def hasSubseq {α : Type} [BEq α] (sub : List α) : List α → Bool
  | [] => sub.isEmpty
  | c :: t => startsWithSeq sub (c :: t) || hasSubseq sub t

/-- Python `sub in hay` on strings: contiguous substring test. -/
def strContains (hay sub : String) : Bool := hasSubseq sub.data hay.data

/-! ### PanchangCalculator (lines 17-76) -/

/-- `self.tithis`: the 15 lunar-day names. -/
def tithis : List String :=
  ["పాడ్యమి", "విదియ", "తదియ", "చవితి", "పంచమి",
   "షష్టి", "సప్తమి", "అష్టమి", "నవమి", "దశమి",
   "ఏకాదశి", "ద్వాదశి", "త్రయోదశి", "చతుర్దశి", "పౌర్ణమి/అమావాస్య"]

/-- `self.nakshatras`: the 27 asterism names. -/
def nakshatras : List String :=
  ["అశ్విని", "భరణి", "కృత్తిక", "రోహిణి", "మృగశిర",
   "ఆరుద్ర", "పునర్వసు", "పుష్యమి", "ఆశ్లేష", "మఖ",
   "పుబ్బ", "ఉత్తర", "హస్త", "చిత్త", "స్వాతి",
   "విశాఖ", "అనూరాధ", "జ్యేష్ఠ", "మూల", "పూర్వాషాఢ",
   "ఉత్తరాషాఢ", "శ్రవణం", "ధనిష్ఠ", "శతభిషం", "పూర్వాభాద్ర",
   "ఉత్తరాభాద్ర", "రేవతి"]

/-- `self.weekdays_telugu`: dict 0..6 → Telugu weekday name. -/
def weekdays_telugu : List (Nat × String) :=
  [(0, "సోమవారం"), (1, "మంగళవారం"), (2, "బుధవారం"),
   (3, "గురువారం"), (4, "శుక్రవారం"), (5, "శనివారం"), (6, "ఆదివారం")]

/-- The reference new moon `datetime.date(2024, 1, 11)` (Amavasya). -/
def reference_date : Date := ⟨2024, 1, 11⟩

/-- The asterism epoch `datetime.date(2000, 1, 1)`. -/
def epoch_date : Date := ⟨2000, 1, 1⟩

/-- `(date - reference_date).days`: signed day offset from the reference new
moon. -/
def daysDiffRef (date : Date) : Int :=
  (date.toOrdinal : Int) - (reference_date.toOrdinal : Int)

/-- `(date - datetime.date(2000, 1, 1)).days`. -/
def daysSinceEpoch (date : Date) : Int :=
  (date.toOrdinal : Int) - (epoch_date.toOrdinal : Int)

/-- `lunar_day = days_diff % 30` (line 46). -/
def lunar_day (date : Date) : Int := daysDiffRef date % 30

/-- `tithi_index = lunar_day % 15` (line 49). -/
def tithi_index (date : Date) : Int := lunar_day date % 15

/-- `nakshatra_index = (days_since_epoch * 13) % 27` (line 56). -/
def nakshatra_index (date : Date) : Int := daysSinceEpoch date * 13 % 27

/-- `PanchangCalculator.get_tithi` (lines 41-51). -/
def get_tithi (date : Date) : Option String := do
  let paksha := if lunar_day date < 15 then "శుక్ల పక్షం" else "కృష్ణ పక్షం"
  let t ← pyIdx tithis (tithi_index date)
  return paksha ++ " " ++ t

/-- `PanchangCalculator.get_nakshatra` (lines 53-57). -/
def get_nakshatra (date : Date) : Option String :=
  pyIdx nakshatras (nakshatra_index date)

/-- `phase = (days_diff % 30) / 30` (line 63), as an exact rational (see the
header note on why this matches the float computation). -/
def moon_phase_of (date : Date) : Rat := ((daysDiffRef date % 30 : Int) : Rat) / 30

/-- `PanchangCalculator.get_moon_phase` (lines 59-72). -/
def get_moon_phase (date : Date) : String :=
  let phase := moon_phase_of date
  if phase < 0.03 ∨ phase > 0.97 then "అమావాస్య (New Moon)"
  else if 0.22 < phase ∧ phase < 0.28 then "పూర్తి చంద్రుడు (Full Moon)"
  else if phase < 0.25 then "వర్ధమాన చంద్రుడు (Waxing)"
  else "క్షీణించు చంద్రుడు (Waning)"

/-- `PanchangCalculator.get_weekday_telugu` (lines 74-76): a dict access that
raises `KeyError` on a missing key (never hit: weekdays are 0..6). -/
def get_weekday_telugu (date : Date) : Option String :=
  List.lookup date.weekday weekdays_telugu

/-! ### DynamicPredictionEngine: static tables (lines 79-188) -/

/-- Static attributes of one sign (`self.rashi_base` values). -/
structure RashiInfo where
  element : String
  lord : String
  nature : String
  favorable_days : List Nat
  areas : List String
deriving DecidableEq, Repr

/-- The `"మేషం"` (default) entry of `rashi_base`. -/
def mesham_info : RashiInfo :=
  { element := "fire", lord := "mars", nature := "movable",
    favorable_days := [1, 6],
    areas := ["action", "courage", "initiative", "competition"] }

/-- `self.rashi_base` (lines 86-171), entries in source order. -/
def rashi_base : List (String × RashiInfo) :=
 [ ("వృషభం",
   { element := "earth", lord := "venus", nature := "fixed",
     favorable_days := [4, 5],
     areas := ["finance", "family", "comfort", "relationships"] }),
 ("సింహం",
   { element := "fire", lord := "sun", nature := "fixed",
     favorable_days := [6],
     areas := ["leadership", "career", "recognition", "authority"] }),
 ("ధనుస్సు",
   { element := "fire", lord := "jupiter", nature := "dual",
     favorable_days := [3],
     areas := ["education", "travel", "spirituality", "fortune"] }),
 ("మేషం",
   mesham_info),
 ("మిథునం",
   { element := "air", lord := "mercury", nature := "dual",
     favorable_days := [2],
     areas := ["communication", "learning", "networking", "versatility"] }),
 ("కర్కాటకం",
   { element := "water", lord := "moon", nature := "movable",
     favorable_days := [0],
     areas := ["emotions", "home", "family", "nurturing"] }),
 ("కన్య",
   { element := "earth", lord := "mercury", nature := "dual",
     favorable_days := [2],
     areas := ["service", "health", "analysis", "perfection"] }),
 ("తుల",
   { element := "air", lord := "venus", nature := "movable",
     favorable_days := [4],
     areas := ["relationships", "balance", "art", "harmony"] }),
 ("వృశ్చికం",
   { element := "water", lord := "mars", nature := "fixed",
     favorable_days := [1],
     areas := ["transformation", "intensity", "secrets", "power"] }),
 ("మకరం",
   { element := "earth", lord := "saturn", nature := "movable",
     favorable_days := [5],
     areas := ["discipline", "career", "ambition", "responsibility"] }),
 ("కుంభం",
   { element := "air", lord := "saturn", nature := "fixed",
     favorable_days := [5],
     areas := ["innovation", "social", "freedom", "uniqueness"] }),
 ("మీనం",
   { element := "water", lord := "jupiter", nature := "dual",
     favorable_days := [3],
     areas := ["spirituality", "compassion", "intuition", "dreams"] })]

/-- `self.prediction_templates` (lines 174-188): tone → template list. -/
def prediction_templates : List (String × List String) :=
  [("favorable",
    ["ఈరోజు మీకు అనుకూలమైన రోజు. {area}లో మంచి పురోగతి ఉంటుంది.",
     "{area} విషయాలలో విజయం సాధించే అవకాశాలు ఉన్నాయి.",
     "ఈరోజు {area}కు సంబంధించిన కార్యక్రమాలు శుభఫలితాలిస్తాయి."]),
   ("neutral",
    ["{area} విషయాలలో సాధారణ పరిస్థితులు ఉంటాయి. జాగ్రత్తగా ముందుకు సాగండి.",
     "ఈరోజు {area}లో ఓపిక పాటించండి. మంచి ఫలితాలు రావొచ్చు."]),
   ("challenging",
    ["{area} విషయాలలో జాగ్రత్త అవసరం. త్వరపడకుండా నిర్ణయాలు తీసుకోండి.",
     "ఈరోజు {area}లో అడ్డంకులు ఎదురవొచ్చు. ధైర్యంగా ఎదుర్కోండి."])]

/-- `weekday_openings` (lines 232-240): dict weekday → opening sentence. -/
def weekday_openings : List (Nat × String) :=
  [(0, "సోమవారం చంద్రుని ప్రభావంతో మీ మనస్సు స్థిరంగా ఉంటుంది."),
   (1, "మంగళవారం మంగళుని శక్తితో మీకు ధైర్యం, శక్తి లభిస్తాయి."),
   (2, "బుధవారం బుధుని ఆశీస్సుతో మీ కమ్యూనికేషన్ నైపుణ్యాలు మెరుగుపడతాయి."),
   (3, "గురువారం బృహస్పతి దేవుని కృపతో జ్ఞానం, అదృష్టం పెరుగుతాయి."),
   (4, "శుక్రవారం శుక్రుని ప్రభావంతో సంబంధాలు, సౌందర్యం పెరుగుతాయి."),
   (5, "శనివారం శని దేవుని ప్రభావంతో కష్టపడి పనిచేయండి."),
   (6, "ఆదివారం సూర్యదేవుని తేజస్సుతో మీ వ్యక్తిత్వం ప్రకాశిస్తుంది.")]

/-- The per-area Telugu label dict (lines 245-253), default the area itself. -/
def area_telugu_map : List (String × String) :=
  [("finance", "ఆర్థిక"), ("family", "కుటుంబ"), ("career", "వృత్తి"),
   ("education", "విద్యా"), ("health", "ఆరోగ్య"), ("relationships", "సంబంధ"),
   ("leadership", "నాయకత్వ"), ("spirituality", "ఆధ్యాత్మిక"),
   ("travel", "ప్రయాణ"), ("communication", "సంభాషణ"),
   ("action", "కార్య"), ("service", "సేవా"), ("balance", "సమతుల్యత"),
   ("transformation", "పరివర్తన"), ("discipline", "క్రమశిక్షణ"),
   ("innovation", "ఆవిష్కరణ"), ("compassion", "కరుణ")]

/-- `nakshatra_effects` (lines 259-271): curated effect phrases. -/
def nakshatra_effects : List (String × String) :=
  [("అశ్విని", "వేగవంతమైన పురోగతి"),
   ("రోహిణి", "స్థిరత్వం మరియు వృద్ధి"),
   ("పుష్యమి", "పోషణ మరియు శ్రేయస్సు"),
   ("మఖ", "గౌరవం మరియు అధికారం"),
   ("హస్త", "నైపుణ్యం మరియు సృజనాత్మకత"),
   ("స్వాతి", "స్వతంత్రత మరియు సానుకూలత"),
   ("అనూరాధ", "స్నేహం మరియు సహకారం"),
   ("మూల", "పరివర్తన మరియు పునాదులు"),
   ("శ్రవణం", "జ్ఞానం మరియు అవగాహన"),
   ("శతభిషం", "వైద్యం మరియు రహస్యాలు"),
   ("రేవతి", "కరుణ మరియు పూర్ణత్వం")]

/-- `weekday_remedies` (lines 307-315): dict weekday → 3 remedy candidates. -/
def weekday_remedies : List (Nat × List String) :=
  [(0, ["సోమవారం శివుడిని పూజించండి", "పాల దానం చేయండి", "తెల్ల వస్తువులు ధరించండి"]),
   (1, ["మంగళవారం హనుమాన్ జీ పూజ", "ఎరుపు గింజలు దానం", "హనుమాన్ చాలీసా పారాయణ"]),
   (2, ["బుధవారం విష్ణు మూర్తిని పూజించండి", "పచ్చి మిరప దానం", "విద్యార్థులకు సహాయం"]),
   (3, ["గురువారం బృహస్పతి దేవుడిని పూజించండి", "పసుపు దానం", "గురువులను గౌరవించండి"]),
   (4, ["శుక్రవారం మహాలక్ష్మి పూజ", "తేనె దానం", "తెల్ల పూలు అర్పించండి"]),
   (5, ["శనివారం శని దేవుడిని నమస్కరించండి", "నల్లగింజలు దానం", "పేదలకు సహాయం"]),
   (6, ["ఆదివారం సూర్యుడికి అర్ఘ్యం", "గోధుమలు దానం", "పితృదేవతలకు ప్రార్థన"])]

/-- `rashi_remedies` (lines 320-324): curated sign-specific remedies. -/
def rashi_remedies : List (String × String) :=
  [("వృషభం", "శుక్ర మంత్రం (ఓం శుక్రాయ నమః) జపించండి"),
   ("సింహం", "గాయత్రీ మంత్రం పారాయణ చేయండి"),
   ("ధనుస్సు", "విష్ణు సహస్రనామం చదవండి")]

/-- The fixed fallback remedy appended when the tone is challenging (line 330). -/
def fallback_remedy : String := "ఈరోజు మీ ఇష్టదైవాన్ని ప్రార్థించండి - అడ్డంకులు తొలగిపోతాయి"

/-- `rashi_colors` (lines 340-353): sign → lucky color candidates. -/
def rashi_colors : List (String × List String) :=
  [("వృషభం", ["తెలుపు", "గులాబీ", "ఆకుపచ్చ"]),
   ("సింహం", ["బంగారు", "నారింజ", "ఎరుపు"]),
   ("ధనుస్సు", ["పసుపు", "నారింజ", "ఊదా"]),
   ("మేషం", ["ఎరుపు", "నారింజ"]),
   ("మిథునం", ["ఆకుపచ్చ", "పసుపు"]),
   ("కర్కాటకం", ["తెలుపు", "వెండి"]),
   ("కన్య", ["ఆకుపచ్చ", "గోధుమ"]),
   ("తుల", ["గులాబీ", "నీలం"]),
   ("వృశ్చికం", ["ఎరుపు", "నలుపు"]),
   ("మకరం", ["నలుపు", "గోధుమ"]),
   ("కుంభం", ["నీలం", "వైలెట్"]),
   ("మీనం", ["పసుపు", "సముద్ర ఆకుపచ్చ"])]

/-- `base_numbers = [1, ..., 9]` (line 359). -/
def base_numbers : List Nat := [1, 2, 3, 4, 5, 6, 7, 8, 9]

/-- `time_slots` (lines 363-369). -/
def time_slots : List String :=
  ["ఉదయం 6:00 - 9:00", "ఉదయం 10:00 - 12:00", "మధ్యాహ్నం 12:00 - 3:00",
   "సాయంత్రం 4:00 - 6:00", "సాయంత్రం 6:00 - 8:00"]

/-- `directions` (line 373). -/
def directions : List String := ["తూర్పు", "పడమర", "ఉత్తరం", "దక్షిణం", "ఈశాన్యం"]

/-! ### DynamicPredictionEngine: derived values and generators (lines 190-381) -/

/-- The tone classification (lines 221-226). -/
def tone_of (score : Int) : String :=
  if score ≥ 3 then "favorable"
  else if score ≤ -2 then "challenging"
  else "neutral"

/-- The user-facing favorability label (line 299), re-derived from the same
score. -/
def favorability_label (score : Int) : String :=
  if score ≥ 3 then "అనుకూలం"
  else if score ≤ -2 then "జాగ్రత్త"
  else "సాధారణం"

/-- The favorability-score computation of `generate_daily_prediction`
(lines 200-218), extracted verbatim: starts at 0; `+= 3` on a favorable
weekday; `+= (date_seed % 10) - 5`; `+= 1` when the recomputed
`nakshatras.index(nakshatra)` is divisible by 3.  The nakshatra string is the
one `generate_daily_prediction` obtains from `get_nakshatra` (a pure,
repeatable computation). -/
def favorability_score (rashi : String) (date : Date) : Option Int := do
  let nakshatra ← get_nakshatra date
  let weekday := date.weekday
  let rashi_info := (List.lookup rashi rashi_base).getD mesham_info
  let score : Int := 0
  let score := if weekday ∈ rashi_info.favorable_days then score + 3 else score
  let date_seed := md5seed (dateStr date)
  let day_influence : Int := (date_seed % 10 : Nat) - 5
  let score := score + day_influence
  let nakshatra_idx ← pyIndex nakshatras nakshatra
  let score := if nakshatra_idx % 3 = 0 then score + 1 else score
  return score

/-- `DynamicPredictionEngine.generate_daily_remedies` (lines 302-332). -/
def generate_daily_remedies (rashi : String) (weekday : Nat) (tone : String) :
    Option (List String) := do
  let wr ← List.lookup weekday weekday_remedies
  let remedies : List String := []
  let remedies := remedies ++ wr.take 2
  let remedies :=
    match List.lookup rashi rashi_remedies with
    | some r => remedies ++ [r]
    | none => remedies
  let remedies := if tone = "challenging" then remedies ++ [fallback_remedy] else remedies
  return remedies

/-- The fields returned by `generate_lucky_elements`. -/
structure LuckyData where
  lucky_color : String
  lucky_number : String
  lucky_time : String
  lucky_direction : String
deriving DecidableEq, Repr

/-- `lucky number index = (date.day + score) % 9` (line 360). -/
def lucky_number_index (date : Date) (score : Int) : Int := (date.day + score) % 9

/-- `DynamicPredictionEngine.generate_lucky_elements` (lines 334-381). -/
def generate_lucky_elements (rashi : String) (date : Date) (score : Int) :
    Option LuckyData := do
  let date_seed := md5seed (dateStr date)
  let colors := (List.lookup rashi rashi_colors).getD ["తెలుపు"]
  let lucky_color ← pyIdx colors (date_seed % colors.length : Nat)
  let lucky_number ← pyIdx base_numbers (lucky_number_index date score)
  let lucky_time ← pyIdx time_slots (date_seed % time_slots.length : Nat)
  let lucky_direction ← pyIdx directions (date_seed % directions.length : Nat)
  return { lucky_color := lucky_color, lucky_number := toString lucky_number,
           lucky_time := lucky_time, lucky_direction := lucky_direction }

/-- The fields of the panchang sub-dict of the returned prediction. -/
structure Panchang where
  tithi : String
  nakshatra : String
  weekday : String
  moon_phase : String
deriving DecidableEq, Repr

/-- The dict returned by `generate_daily_prediction` (lines 289-300). -/
structure Prediction where
  prediction : String
  panchang : Panchang
  lucky_color : String
  lucky_number : String
  lucky_time : String
  lucky_direction : String
  remedies : List String
  favorability : String
deriving DecidableEq, Repr

/-- `DynamicPredictionEngine.generate_daily_prediction` (lines 190-300).
The favorability-score block (lines 200-218) is the extracted
`favorability_score` above; it recomputes `get_nakshatra date` and
`rashi_info`, both pure, so the value is the one computed in place by the
source. -/
def generate_daily_prediction (rashi : String) (date : Date) : Option Prediction := do
  let tithi ← get_tithi date
  let nakshatra ← get_nakshatra date
  let weekday := date.weekday
  let weekday_telugu ← get_weekday_telugu date
  let moon_phase := get_moon_phase date
  let rashi_info := (List.lookup rashi rashi_base).getD mesham_info
  let score ← favorability_score rashi date
  let tone := tone_of score
  let date_seed := md5seed (dateStr date)
  let opening ← List.lookup weekday weekday_openings
  let templates ← List.lookup tone prediction_templates
  let area_sentences ← (rashi_info.areas.take 2).mapM fun area =>
    (pyIdx templates (date_seed % templates.length : Nat)).map fun template =>
      template.replace "{area}" ((List.lookup area area_telugu_map).getD area)
  let parts := [opening] ++ area_sentences
  let parts :=
    match List.lookup nakshatra nakshatra_effects with
    | some eff => parts ++ [nakshatra ++ " నక్షత్రం " ++ eff ++ " తెస్తుంది."]
    | none => parts
  let parts :=
    if strContains moon_phase "పూర్తి చంద్రుడు" then
      parts ++ ["పౌర్ణమి యొక్క ప్రభావం మీ భావోద్వేగాలను బలపరుస్తుంది."]
    else if strContains moon_phase "అమావాస్య" then
      parts ++ ["అమావాస్య సమయం కొత్త ప్రారంభాలకు శుభం."]
    else parts
  let full_prediction := String.intercalate " " parts
  let remedies ← generate_daily_remedies rashi weekday tone
  let lucky ← generate_lucky_elements rashi date score
  return { prediction := full_prediction,
           panchang := { tithi := tithi, nakshatra := nakshatra,
                         weekday := weekday_telugu, moon_phase := moon_phase },
           lucky_color := lucky.lucky_color, lucky_number := lucky.lucky_number,
           lucky_time := lucky.lucky_time, lucky_direction := lucky.lucky_direction,
           remedies := remedies,
           favorability := favorability_label score }

/-! ### TeluguHoroscopeSystem (lines 384-425) -/

/-- `self.rashi_mapping` (lines 391-396): Telugu sign → English name, in the
standard zodiac order Aries..Pisces. -/
def rashi_mapping : List (String × String) :=
  [("మేషం", "Aries"), ("వృషభం", "Taurus"), ("మిథునం", "Gemini"),
   ("కర్కాటకం", "Cancer"), ("సింహం", "Leo"), ("కన్య", "Virgo"),
   ("తుల", "Libra"), ("వృశ్చికం", "Scorpio"), ("ధనుస్సు", "Sagittarius"),
   ("మకరం", "Capricorn"), ("కుంభం", "Aquarius"), ("మీనం", "Pisces")]

/-- The twelve recognized signs, in zodiac order. -/
def zodiac_order : List String := rashi_mapping.map Prod.fst

/-- The twelve sign keys of `rashi_base` (the generator's own table). -/
def recognized_rashis : List String := rashi_base.map Prod.fst

/-- `TeluguHoroscopeSystem.calculate_rashi_from_dob` (lines 398-425):
fixed tropical-zodiac month/day boundaries. -/
def calculate_rashi_from_dob (dob : Date) : String :=
  let month := dob.month
  let day := dob.day
  if month = 3 ∧ day ≥ 21 ∨ month = 4 ∧ day ≤ 19 then "మేషం"
  else if month = 4 ∧ day ≥ 20 ∨ month = 5 ∧ day ≤ 20 then "వృషభం"
  else if month = 5 ∧ day ≥ 21 ∨ month = 6 ∧ day ≤ 20 then "మిథునం"
  else if month = 6 ∧ day ≥ 21 ∨ month = 7 ∧ day ≤ 22 then "కర్కాటకం"
  else if month = 7 ∧ day ≥ 23 ∨ month = 8 ∧ day ≤ 22 then "సింహం"
  else if month = 8 ∧ day ≥ 23 ∨ month = 9 ∧ day ≤ 22 then "కన్య"
  else if month = 9 ∧ day ≥ 23 ∨ month = 10 ∧ day ≤ 22 then "తుల"
  else if month = 10 ∧ day ≥ 23 ∨ month = 11 ∧ day ≤ 21 then "వృశ్చికం"
  else if month = 11 ∧ day ≥ 22 ∨ month = 12 ∧ day ≤ 21 then "ధనుస్సు"
  else if month = 12 ∧ day ≥ 22 ∨ month = 1 ∧ day ≤ 19 then "మకరం"
  else if month = 1 ∧ day ≥ 20 ∨ month = 2 ∧ day ≤ 18 then "కుంభం"
  else "మీనం"

/-! ### Closed forms

Total counterparts of the `Option`-valued embeddings above.  Each is proved
equal to its fallible original (`..._spec` lemmas below): the originals never
actually fail, because every computed index lands inside its fixed table. -/

/-- Closed form of `get_tithi`. -/
def tithi_total (d : Date) : String :=
  (if lunar_day d < 15 then "శుక్ల పక్షం" else "కృష్ణ పక్షం") ++ " " ++
    tithis.getD (tithi_index d).toNat ""

/-- Closed form of `get_nakshatra`. -/
def nakshatra_total (d : Date) : String := nakshatras.getD (nakshatra_index d).toNat ""

/-- Closed form of `get_weekday_telugu`. -/
def weekday_telugu_total (d : Date) : String :=
  (List.lookup d.weekday weekdays_telugu).getD ""

/-- Closed form of the weekday opening lookup. -/
def opening_total (d : Date) : String := (List.lookup d.weekday weekday_openings).getD ""

/-- Closed form of `favorability_score`: the sum of the three additive
terms. -/
def favorability_score_total (rashi : String) (date : Date) : Int :=
  let rashi_info := (List.lookup rashi rashi_base).getD mesham_info
  (if date.weekday ∈ rashi_info.favorable_days then (3 : Int) else 0) +
    ((md5seed (dateStr date) % 10 : Nat) - 5 : Int) +
    (if nakshatras.indexOf (nakshatra_total date) % 3 = 0 then 1 else 0)

/-- Closed form of `generate_daily_remedies`: the three segments
concatenated in order. -/
def remedies_total (rashi : String) (weekday : Nat) (tone : String) : List String :=
  ((List.lookup weekday weekday_remedies).getD []).take 2 ++
    (match List.lookup rashi rashi_remedies with
     | some r => [r]
     | none => []) ++
    (if tone = "challenging" then [fallback_remedy] else [])

/-- Closed form of `generate_lucky_elements`. -/
def lucky_elements_total (rashi : String) (date : Date) (score : Int) : LuckyData :=
  let date_seed := md5seed (dateStr date)
  let colors := (List.lookup rashi rashi_colors).getD ["తెలుపు"]
  { lucky_color := colors.getD (date_seed % colors.length) "",
    lucky_number := toString (base_numbers.getD (lucky_number_index date score).toNat 0),
    lucky_time := time_slots.getD (date_seed % time_slots.length) "",
    lucky_direction := directions.getD (date_seed % directions.length) "" }

/-- The template bucket selected for a tone. -/
def templates_for (tone : String) : List String :=
  (List.lookup tone prediction_templates).getD []

/-- Closed form of the prediction text assembled by
`generate_daily_prediction`; the template bucket is selected by
`tone_of score`. -/
def prediction_text_total (rashi : String) (date : Date) (score : Int) : String :=
  let nakshatra := nakshatra_total date
  let moon_phase := get_moon_phase date
  let rashi_info := (List.lookup rashi rashi_base).getD mesham_info
  let date_seed := md5seed (dateStr date)
  let templates := templates_for (tone_of score)
  let parts := [opening_total date] ++ (rashi_info.areas.take 2).map fun area =>
    (templates.getD (date_seed % templates.length) "").replace "{area}"
      ((List.lookup area area_telugu_map).getD area)
  let parts :=
    match List.lookup nakshatra nakshatra_effects with
    | some eff => parts ++ [nakshatra ++ " నక్షత్రం " ++ eff ++ " తెస్తుంది."]
    | none => parts
  let parts :=
    if strContains moon_phase "పూర్తి చంద్రుడు" then
      parts ++ ["పౌర్ణమి యొక్క ప్రభావం మీ భావోద్వేగాలను బలపరుస్తుంది."]
    else if strContains moon_phase "అమావాస్య" then
      parts ++ ["అమావాస్య సమయం కొత్త ప్రారంభాలకు శుభం."]
    else parts
  String.intercalate " " parts

/-- Closed form of `generate_daily_prediction`. -/
def generate_total (rashi : String) (date : Date) : Prediction :=
  let score := favorability_score_total rashi date
  { prediction := prediction_text_total rashi date score,
    panchang := { tithi := tithi_total date, nakshatra := nakshatra_total date,
                  weekday := weekday_telugu_total date,
                  moon_phase := get_moon_phase date },
    lucky_color := (lucky_elements_total rashi date score).lucky_color,
    lucky_number := (lucky_elements_total rashi date score).lucky_number,
    lucky_time := (lucky_elements_total rashi date score).lucky_time,
    lucky_direction := (lucky_elements_total rashi date score).lucky_direction,
    remedies := remedies_total rashi date.weekday (tone_of score),
    favorability := favorability_label score }

/-! ### Container lemmas -/

theorem getD_eq_get {α : Type} (l : List α) (n : Nat) (dflt : α) (h : n < l.length) :
    l.getD n dflt = l.get ⟨n, h⟩ := by
  simp [List.getD_eq_getElem?_getD, List.getElem?_eq_getElem h]

theorem pyIdx_eq_some {α : Type} (xs : List α) (i : Int) (dflt : α)
    (h0 : 0 ≤ i) (h1 : i < (xs.length : Int)) :
    pyIdx xs i = some (xs.getD i.toNat dflt) := by
  unfold pyIdx
  have hni : ¬ i < 0 := by omega
  simp only [hni, if_false]
  rw [dif_pos ⟨h0, h1⟩, getD_eq_get xs i.toNat dflt (by omega)]

theorem pyIdx_mem {α : Type} {xs : List α} {i : Int} {x : α}
    (h : pyIdx xs i = some x) : x ∈ xs := by
  simp only [pyIdx] at h
  split at h <;> split at h <;>
    first
      | (cases h; exact List.get_mem _ _ _)
      | cases h

theorem lookup_eq_none_of_not_mem {α β : Type} [BEq α] [LawfulBEq α] {a : α}
    {l : List (α × β)} (h : a ∉ l.map Prod.fst) : List.lookup a l = none := by
  induction l with
  | nil => rfl
  | cons p t ih =>
    obtain ⟨k, v⟩ := p
    simp only [List.map_cons, List.mem_cons, not_or] at h
    simp only [List.lookup, beq_eq_false_iff_ne.mpr h.1]
    exact ih h.2

theorem lookup_mem {α β : Type} [BEq α] [LawfulBEq α] {a : α} {b : β}
    {l : List (α × β)} (h : List.lookup a l = some b) : (a, b) ∈ l := by
  induction l with
  | nil => cases h
  | cons p t ih =>
    obtain ⟨k, v⟩ := p
    simp only [List.lookup] at h
    rcases hek : a == k with _ | _
    · rw [hek] at h
      exact List.mem_cons_of_mem _ (ih h)
    · rw [hek] at h
      cases h
      exact (eq_of_beq hek) ▸ List.mem_cons_self _ _

theorem mapM_loop_eq {α β : Type} {f : α → Option β} {g : α → β}
    (h : ∀ a, f a = some (g a)) :
    ∀ (l : List α) (acc : List β),
      List.mapM.loop f l acc = some (acc.reverse ++ l.map g) := by
  intro l
  induction l with
  | nil => intro acc; simp [List.mapM.loop]
  | cons a t ih =>
    intro acc
    simp [List.mapM.loop, h a, ih (g a :: acc)]

theorem mapM_eq_some_map {α β : Type} (f : α → Option β) (g : α → β)
    (h : ∀ a, f a = some (g a)) (l : List α) : l.mapM f = some (l.map g) := by
  simpa [List.mapM] using mapM_loop_eq h l []

/-! ### The fallible embeddings never fail: spec lemmas -/

theorem tithis_length : tithis.length = 15 := rfl

theorem nakshatras_length : nakshatras.length = 27 := rfl

theorem tithi_index_bounds (d : Date) : 0 ≤ tithi_index d ∧ tithi_index d < 15 := by
  unfold tithi_index lunar_day
  omega

theorem nakshatra_index_bounds (d : Date) :
    0 ≤ nakshatra_index d ∧ nakshatra_index d < 27 := by
  unfold nakshatra_index
  omega

theorem get_tithi_spec (d : Date) : get_tithi d = some (tithi_total d) := by
  have hb := tithi_index_bounds d
  have h1 : tithi_index d < (tithis.length : Int) := by rw [tithis_length]; omega
  unfold get_tithi tithi_total
  rw [pyIdx_eq_some tithis (tithi_index d) "" hb.1 h1]
  rfl

theorem get_nakshatra_spec (d : Date) : get_nakshatra d = some (nakshatra_total d) := by
  have hb := nakshatra_index_bounds d
  have h1 : nakshatra_index d < (nakshatras.length : Int) := by rw [nakshatras_length]; omega
  unfold get_nakshatra nakshatra_total
  rw [pyIdx_eq_some nakshatras (nakshatra_index d) "" hb.1 h1]

theorem nakshatra_total_mem (d : Date) : nakshatra_total d ∈ nakshatras := by
  have hb := nakshatra_index_bounds d
  have h : (nakshatra_index d).toNat < nakshatras.length := by rw [nakshatras_length]; omega
  unfold nakshatra_total
  rw [getD_eq_get nakshatras _ "" h]
  exact List.get_mem _ _ _

theorem weekday_lt (d : Date) : d.weekday < 7 := by
  unfold Date.weekday
  exact Nat.mod_lt _ (by decide)

theorem get_weekday_telugu_spec (d : Date) :
    get_weekday_telugu d = some (weekday_telugu_total d) := by
  unfold get_weekday_telugu weekday_telugu_total
  have h := weekday_lt d
  generalize d.weekday = w at h ⊢
  interval_cases w <;> rfl

theorem opening_spec (d : Date) :
    List.lookup d.weekday weekday_openings = some (opening_total d) := by
  unfold opening_total
  have h := weekday_lt d
  generalize d.weekday = w at h ⊢
  interval_cases w <;> rfl

theorem generate_daily_remedies_spec (rashi : String) (w : Nat) (tone : String)
    (h : w < 7) :
    generate_daily_remedies rashi w tone = some (remedies_total rashi w tone) := by
  have hw : List.lookup w weekday_remedies =
      some ((List.lookup w weekday_remedies).getD []) := by
    interval_cases w <;> rfl
  unfold generate_daily_remedies remedies_total
  rw [hw]
  cases List.lookup rashi rashi_remedies <;> split_ifs <;>
    simp [Option.bind, List.append_assoc]

theorem templates_spec (score : Int) :
    List.lookup (tone_of score) prediction_templates =
      some (templates_for (tone_of score)) := by
  unfold tone_of templates_for
  split_ifs <;> rfl

theorem templates_for_length (score : Int) : 0 < (templates_for (tone_of score)).length := by
  unfold tone_of templates_for
  split_ifs <;> decide

theorem contains_of_mem {α : Type} [BEq α] [LawfulBEq α] {xs : List α} {x : α}
    (h : x ∈ xs) : xs.contains x = true := by
  simpa [List.contains] using List.elem_eq_true_of_mem h

theorem favorability_score_spec (s : String) (d : Date) :
    favorability_score s d = some (favorability_score_total s d) := by
  have hpy : pyIndex nakshatras (nakshatra_total d) =
      some (nakshatras.indexOf (nakshatra_total d)) := by
    unfold pyIndex
    rw [if_pos (contains_of_mem (nakshatra_total_mem d))]
  unfold favorability_score favorability_score_total
  rw [get_nakshatra_spec]
  simp only [Option.bind_eq_bind, Option.some_bind, hpy, Option.pure_def]
  congr 1
  split_ifs <;> ring

theorem lucky_colors_length (s : String) :
    0 < ((List.lookup s rashi_colors).getD ["తెలుపు"]).length := by
  cases hc : List.lookup s rashi_colors with
  | none => simp
  | some cs =>
    have hmem := lookup_mem hc
    have hall : ∀ p ∈ rashi_colors, 0 < (Prod.snd p).length := by decide
    simpa using hall _ hmem

theorem generate_lucky_elements_spec (s : String) (d : Date) (score : Int) :
    generate_lucky_elements s d score = some (lucky_elements_total s d score) := by
  have h1 := lucky_colors_length s
  simp only [generate_lucky_elements, lucky_elements_total]
  rw [pyIdx_eq_some _ _ "" (Int.natCast_nonneg _)
      (by exact_mod_cast Nat.mod_lt _ h1)]
  rw [pyIdx_eq_some base_numbers _ 0 (by unfold lucky_number_index; omega)
      (by unfold lucky_number_index
          rw [show (base_numbers.length : Int) = 9 from rfl]
          omega)]
  rw [pyIdx_eq_some time_slots _ "" (Int.natCast_nonneg _)
      (by exact_mod_cast Nat.mod_lt _ (by decide : 0 < time_slots.length))]
  rw [pyIdx_eq_some directions _ "" (Int.natCast_nonneg _)
      (by exact_mod_cast Nat.mod_lt _ (by decide : 0 < directions.length))]
  have hcast : ∀ x y : Nat, ((x : Int) % (y : Int)).toNat = x % y := by
    intro x y
    omega
  simp [Option.bind_eq_bind, Option.some_bind, hcast]

theorem generate_spec (s : String) (d : Date) :
    generate_daily_prediction s d = some (generate_total s d) := by
  have hlen := templates_for_length (favorability_score_total s d)
  have ht0 : pyIdx (templates_for (tone_of (favorability_score_total s d)))
      (md5seed (dateStr d) % (templates_for (tone_of (favorability_score_total s d))).length : Nat) =
      some ((templates_for (tone_of (favorability_score_total s d))).getD
        (md5seed (dateStr d) % (templates_for (tone_of (favorability_score_total s d))).length) "") := by
    rw [pyIdx_eq_some _ _ "" (Int.natCast_nonneg _) (by exact_mod_cast Nat.mod_lt _ hlen)]
    have hcast : ∀ x y : Nat, ((x : Int) % (y : Int)).toNat = x % y := by
      intro x y
      omega
    simp [hcast]
  unfold generate_daily_prediction generate_total
  rw [get_tithi_spec, get_nakshatra_spec, get_weekday_telugu_spec, favorability_score_spec]
  simp only [Option.bind_eq_bind, Option.some_bind]
  rw [opening_spec, templates_spec]
  simp only [Option.some_bind]
  rw [ht0]
  simp only [Option.map_some']
  rw [mapM_eq_some_map _
        (fun area => ((templates_for (tone_of (favorability_score_total s d))).getD
            (md5seed (dateStr d) % (templates_for (tone_of (favorability_score_total s d))).length) "").replace
          "{area}" ((List.lookup area area_telugu_map).getD area))
        (fun a => rfl)]
  simp only [Option.some_bind]
  rw [generate_daily_remedies_spec s d.weekday (tone_of (favorability_score_total s d)) (weekday_lt d)]
  simp only [Option.some_bind]
  rw [generate_lucky_elements_spec]
  simp only [Option.some_bind, Option.pure_def]
  rfl

/-! ### Claim theorems -/

theorem favorability_score_total_bounds (s : String) (d : Date) :
    -5 ≤ favorability_score_total s d ∧ favorability_score_total s d ≤ 8 := by
  simp only [favorability_score_total]
  have h : md5seed (dateStr d) % 10 < 10 := Nat.mod_lt _ (by decide)
  split_ifs <;> omega

/-- C1.  Determinism: `generate_daily_prediction` is a pure function of the
`(sign, date)` pair — two invocations on equal inputs return identical
results, field by field (prediction text, panchang snapshot, lucky
attributes, remedies, favorability label).  The embedding threads no clock,
randomness or other ambient state: the only inputs are the pair itself. -/
theorem claim_C1 (s₁ s₂ : String) (d₁ d₂ : Date) (hs : s₁ = s₂) (hd : d₁ = d₂) :
    generate_daily_prediction s₁ d₁ = generate_daily_prediction s₂ d₂ ∧
    (generate_daily_prediction s₁ d₁).map Prediction.prediction =
      (generate_daily_prediction s₂ d₂).map Prediction.prediction ∧
    (generate_daily_prediction s₁ d₁).map Prediction.panchang =
      (generate_daily_prediction s₂ d₂).map Prediction.panchang ∧
    (generate_daily_prediction s₁ d₁).map Prediction.lucky_color =
      (generate_daily_prediction s₂ d₂).map Prediction.lucky_color ∧
    (generate_daily_prediction s₁ d₁).map Prediction.lucky_number =
      (generate_daily_prediction s₂ d₂).map Prediction.lucky_number ∧
    (generate_daily_prediction s₁ d₁).map Prediction.lucky_time =
      (generate_daily_prediction s₂ d₂).map Prediction.lucky_time ∧
    (generate_daily_prediction s₁ d₁).map Prediction.lucky_direction =
      (generate_daily_prediction s₂ d₂).map Prediction.lucky_direction ∧
    (generate_daily_prediction s₁ d₁).map Prediction.remedies =
      (generate_daily_prediction s₂ d₂).map Prediction.remedies ∧
    (generate_daily_prediction s₁ d₁).map Prediction.favorability =
      (generate_daily_prediction s₂ d₂).map Prediction.favorability := by
  subst hs
  subst hd
  exact ⟨rfl, rfl, rfl, rfl, rfl, rfl, rfl, rfl, rfl⟩

/-- Witness for C1 at the concrete input (మేషం, 2024-01-11). -/
theorem claim_C1_witness :
    generate_daily_prediction "మేషం" ⟨2024, 1, 11⟩ =
      generate_daily_prediction "మేషం" ⟨2024, 1, 11⟩ :=
  (claim_C1 "మేషం" "మేషం" ⟨2024, 1, 11⟩ ⟨2024, 1, 11⟩ rfl rfl).1

/-- C2.  For every recognized sign (one looked up in `rashi_base`) and every
date, the favorability score is the sum of exactly three terms: 3 or 0 for
the weekday-match bonus, the MD5-seed term `(seed % 10) - 5` in `[-5, 4]`,
and 1 or 0 for the asterism index (its position in the fixed 27-entry list)
being divisible by 3. -/
theorem claim_C2 (s : String) (d : Date) (info : RashiInfo) (nak : String)
    (hinfo : List.lookup s rashi_base = some info)
    (hnak : get_nakshatra d = some nak) :
    favorability_score s d = some
      ((if d.weekday ∈ info.favorable_days then (3 : Int) else 0) +
        ((md5seed (dateStr d) % 10 : Nat) - 5 : Int) +
        (if nakshatras.indexOf nak % 3 = 0 then 1 else 0)) := by
  have h2 := get_nakshatra_spec d
  rw [hnak] at h2
  obtain rfl : nak = nakshatra_total d := Option.some_injective _ h2
  rw [favorability_score_spec]
  unfold favorability_score_total
  rw [hinfo]
  rfl

/-- Witness for C2 at (మేషం, 2024-01-11), whose asterism is చిత్త. -/
theorem claim_C2_witness :
    favorability_score "మేషం" ⟨2024, 1, 11⟩ = some
      ((if (Date.weekday ⟨2024, 1, 11⟩) ∈ mesham_info.favorable_days then (3 : Int) else 0) +
        ((md5seed (dateStr ⟨2024, 1, 11⟩) % 10 : Nat) - 5 : Int) +
        (if nakshatras.indexOf "చిత్త" % 3 = 0 then 1 else 0)) :=
  claim_C2 "మేషం" ⟨2024, 1, 11⟩ mesham_info "చిత్త" (by decide) (by decide)

/-- C3.  The favorability score always lies in `[-5, 8]`; the thresholds
(`≥ 3` favorable, `≤ -2` challenging, else neutral — and likewise for the
user-facing label) partition that range into exactly three disjoint,
gap-free buckets; and the tone used for template selection, the remedies
tone and the user-facing label are all derived from the identical score
value of that call. -/
theorem claim_C3 (s : String) (d : Date) :
    ∃ v : Int,
      favorability_score s d = some v ∧
      (-5 ≤ v ∧ v ≤ 8) ∧
      (∀ w : Int, -5 ≤ w → w ≤ 8 →
        ((tone_of w = "favorable" ↔ 3 ≤ w) ∧
         (tone_of w = "challenging" ↔ w ≤ -2) ∧
         (tone_of w = "neutral" ↔ -2 < w ∧ w < 3) ∧
         (favorability_label w = "అనుకూలం" ↔ 3 ≤ w) ∧
         (favorability_label w = "జాగ్రత్త" ↔ w ≤ -2) ∧
         (favorability_label w = "సాధారణం" ↔ -2 < w ∧ w < 3))) ∧
      (generate_daily_prediction s d).map Prediction.favorability =
        some (favorability_label v) ∧
      (generate_daily_prediction s d).map Prediction.prediction =
        some (prediction_text_total s d v) ∧
      (generate_daily_prediction s d).map Prediction.remedies =
        some (remedies_total s d.weekday (tone_of v)) := by
  refine ⟨favorability_score_total s d, favorability_score_spec s d,
    favorability_score_total_bounds s d, ?_, ?_, ?_, ?_⟩
  · intro w h1 h2
    unfold tone_of favorability_label
    split_ifs <;> refine ⟨?_, ?_, ?_, ?_, ?_, ?_⟩ <;> constructor <;> intro h <;>
      first
        | rfl
        | omega
        | (exfalso; omega)
        | (exact absurd h (by decide))
  · rw [generate_spec]
    rfl
  · rw [generate_spec]
    rfl
  · rw [generate_spec]
    rfl

/-- C4.  An unrecognized sign does not make `generate_daily_prediction` fail:
it silently substitutes the default sign మేషం (Aries), returning exactly the
Aries result except that the lucky color falls back to the single default
తెలుపు (the sign is also unmapped in the color table). -/
theorem claim_C4 (s : String) (d : Date) (h : s ∉ recognized_rashis) :
    generate_daily_prediction s d =
      (generate_daily_prediction "మేషం" d).map
        fun r => { r with lucky_color := "తెలుపు" } := by
  have hsb : List.lookup s rashi_base = none :=
    lookup_eq_none_of_not_mem (by simpa [recognized_rashis] using h)
  have hsubc : ∀ x ∈ rashi_colors.map Prod.fst, x ∈ recognized_rashis := by decide
  have hsc : List.lookup s rashi_colors = none :=
    lookup_eq_none_of_not_mem fun hm => h (hsubc _ hm)
  have hsubr : ∀ x ∈ rashi_remedies.map Prod.fst, x ∈ recognized_rashis := by decide
  have hsr : List.lookup s rashi_remedies = none :=
    lookup_eq_none_of_not_mem fun hm => h (hsubr _ hm)
  have hmb : List.lookup "మేషం" rashi_base = some mesham_info := by decide
  have hmr : List.lookup "మేషం" rashi_remedies = none := by decide
  have hscore : favorability_score_total s d = favorability_score_total "మేషం" d := by
    unfold favorability_score_total
    rw [hsb, hmb]
    rfl
  have hpred : ∀ v : Int, prediction_text_total s d v = prediction_text_total "మేషం" d v := by
    intro v
    unfold prediction_text_total
    rw [hsb, hmb]
    rfl
  have hrem : ∀ t : String, remedies_total s d.weekday t = remedies_total "మేషం" d.weekday t := by
    intro t
    unfold remedies_total
    rw [hsr, hmr]
  have hlucky : ∀ v : Int, lucky_elements_total s d v =
      { lucky_elements_total "మేషం" d v with lucky_color := "తెలుపు" } := by
    intro v
    simp only [lucky_elements_total]
    rw [hsc]
    simp [Nat.mod_one]
  rw [generate_spec, generate_spec]
  simp only [Option.map_some', generate_total]
  rw [hscore, hpred, hrem, hlucky]

/-- Witness for C4 at the unrecognized sign string "Aries". -/
theorem claim_C4_witness :
    generate_daily_prediction "Aries" ⟨2024, 1, 11⟩ =
      (generate_daily_prediction "మేషం" ⟨2024, 1, 11⟩).map
        fun r => { r with lucky_color := "తెలుపు" } :=
  claim_C4 "Aries" ⟨2024, 1, 11⟩ (by decide)

/-- C5.  The moon-phase label checks four bands of
`phase = ((date - reference).days % 30) / 30` in fixed priority order
(new, full, waxing, waning, with the exact boundary constants); in the
overlap `(0.22, 0.25)` of the full and waxing bands the label is full,
because the full band is checked first. -/
theorem claim_C5 (d : Date) :
    (get_moon_phase d =
      if moon_phase_of d < 0.03 ∨ moon_phase_of d > 0.97 then "అమావాస్య (New Moon)"
      else if 0.22 < moon_phase_of d ∧ moon_phase_of d < 0.28 then "పూర్తి చంద్రుడు (Full Moon)"
      else if moon_phase_of d < 0.25 then "వర్ధమాన చంద్రుడు (Waxing)"
      else "క్షీణించు చంద్రుడు (Waning)") ∧
    (0.22 < moon_phase_of d → moon_phase_of d < 0.25 →
      get_moon_phase d = "పూర్తి చంద్రుడు (Full Moon)") := by
  constructor
  · rfl
  · intro h1 h2
    unfold get_moon_phase
    have hn : ¬(moon_phase_of d < 0.03 ∨ moon_phase_of d > 0.97) := by
      push_neg
      constructor <;> linarith
    rw [if_neg hn, if_pos ⟨h1, by linarith⟩]

/-- C6.  The lunar-day label and the moon-phase label are periodic with
period 30 in the day offset from the reference date, and the asterism index
is periodic with period (dividing) 27 in the day offset from the epoch. -/
theorem claim_C6 (d₁ d₂ d₃ : Date)
    (h30 : (d₂.toOrdinal : Int) = d₁.toOrdinal + 30)
    (h27 : (d₃.toOrdinal : Int) = d₁.toOrdinal + 27) :
    get_tithi d₂ = get_tithi d₁ ∧ get_moon_phase d₂ = get_moon_phase d₁ ∧
    nakshatra_index d₃ = nakshatra_index d₁ := by
  have hl : lunar_day d₂ = lunar_day d₁ := by
    unfold lunar_day daysDiffRef
    omega
  refine ⟨?_, ?_, ?_⟩
  · unfold get_tithi tithi_index
    rw [hl]
  · unfold get_moon_phase moon_phase_of
    rw [show daysDiffRef d₂ % 30 = daysDiffRef d₁ % 30 from by unfold daysDiffRef; omega]
  · unfold nakshatra_index daysSinceEpoch
    omega

/-- Witness for C6: 2024-02-10 is 30 days and 2024-02-07 is 27 days after
2024-01-11. -/
theorem claim_C6_witness :
    get_tithi ⟨2024, 2, 10⟩ = get_tithi ⟨2024, 1, 11⟩ ∧
    get_moon_phase ⟨2024, 2, 10⟩ = get_moon_phase ⟨2024, 1, 11⟩ ∧
    nakshatra_index ⟨2024, 2, 7⟩ = nakshatra_index ⟨2024, 1, 11⟩ :=
  claim_C6 ⟨2024, 1, 11⟩ ⟨2024, 2, 10⟩ ⟨2024, 2, 7⟩ (by decide) (by decide)

/-- C7.  The remedies list is built in fixed order — the first two of the
weekday's three remedy candidates, then the sign's curated remedy when the
sign has one, then the fixed fallback sentence when the tone is
"challenging" — hence its length is always between 2 and 4. -/
theorem claim_C7 (s : String) (w : Nat) (t : String) (r : List String)
    (h : generate_daily_remedies s w t = some r) :
    (∃ wr, List.lookup w weekday_remedies = some wr ∧ wr.length = 3 ∧
      r = wr.take 2 ++
        (match List.lookup s rashi_remedies with
         | some x => [x]
         | none => []) ++
        (if t = "challenging" then [fallback_remedy] else [])) ∧
    2 ≤ r.length ∧ r.length ≤ 4 := by
  unfold generate_daily_remedies at h
  cases hw : List.lookup w weekday_remedies with
  | none =>
    rw [hw] at h
    cases h
  | some wr =>
    have hwr3 : wr.length = 3 := by
      have hmem := lookup_mem hw
      have hall : ∀ p ∈ weekday_remedies, (Prod.snd p).length = 3 := by decide
      simpa using hall _ hmem
    rw [hw] at h
    simp only [Option.bind_eq_bind, Option.some_bind, Option.pure_def,
      Option.some.injEq] at h
    subst h
    have htake : (wr.take 2).length = 2 := by
      simp [List.length_take, hwr3]
    refine ⟨⟨wr, rfl, hwr3, ?_⟩, ?_, ?_⟩ <;>
      cases List.lookup s rashi_remedies <;> split_ifs <;>
        simp [List.append_assoc, htake]

/-- Witness for C7 at (వృషభం, Monday, challenging): the list has its maximal
form — two weekday remedies, the sign remedy and the fallback. -/
theorem claim_C7_witness :
    2 ≤ (["సోమవారం శివుడిని పూజించండి", "పాల దానం చేయండి",
          "శుక్ర మంత్రం (ఓం శుక్రాయ నమః) జపించండి", fallback_remedy] : List String).length ∧
    (["సోమవారం శివుడిని పూజించండి", "పాల దానం చేయండి",
      "శుక్ర మంత్రం (ఓం శుక్రాయ నమః) జపించండి", fallback_remedy] : List String).length ≤ 4 :=
  (claim_C7 "వృషభం" 0 "challenging"
    ["సోమవారం శివుడిని పూజించండి", "పాల దానం చేయండి",
     "శుక్ర మంత్రం (ఓం శుక్రాయ నమః) జపించండి", fallback_remedy] (by decide)).2

/-- C8.  The lucky number is always the element at index
`(date.day + favorability_score) % 9` of the sequence 1..9 (for every sign,
date and score), so it is one of the strings "1" .. "9". -/
theorem claim_C8 (s : String) (d : Date) (score : Int) :
    ∃ n : String,
      (generate_lucky_elements s d score).map LuckyData.lucky_number = some n ∧
      n = toString (base_numbers.getD (lucky_number_index d score).toNat 0) ∧
      n ∈ ["1", "2", "3", "4", "5", "6", "7", "8", "9"] := by
  refine ⟨toString (base_numbers.getD (lucky_number_index d score).toNat 0), ?_, rfl, ?_⟩
  · rw [generate_lucky_elements_spec]
    rfl
  · have hb : (lucky_number_index d score).toNat < 9 := by
      unfold lucky_number_index
      omega
    generalize (lucky_number_index d score).toNat = k at hb
    interval_cases k <;> decide

/-- C9.  `calculate_rashi_from_dob` maps both (month 3, day 21) and
(month 4, day 19) to మేషం and (month 4, day 20) to వృషభం, the next sign in
the zodiac order. -/
theorem claim_C9 (y : Nat) :
    calculate_rashi_from_dob ⟨y, 3, 21⟩ = calculate_rashi_from_dob ⟨y, 4, 19⟩ ∧
    calculate_rashi_from_dob ⟨y, 3, 21⟩ = "మేషం" ∧
    calculate_rashi_from_dob ⟨y, 4, 20⟩ = "వృషభం" ∧
    zodiac_order.indexOf "వృషభం" = zodiac_order.indexOf "మేషం" + 1 := by
  refine ⟨rfl, rfl, rfl, by decide⟩

/-- C10.  Totality: for every date (also dates before the reference new moon
and before the epoch, where the day offsets are negative) and every sign and
score, the tithi index is in 0..14, the asterism index in 0..26, the weekday
in 0..6, the lucky-number index in 0..8 (also when `date.day + score` is
negative), and `generate_daily_prediction` returns a value and raises no
error. -/
theorem claim_C10 (s : String) (d : Date) (score : Int) :
    (0 ≤ tithi_index d ∧ tithi_index d < 15) ∧
    (0 ≤ nakshatra_index d ∧ nakshatra_index d < 27) ∧
    Date.weekday d < 7 ∧
    (0 ≤ lucky_number_index d score ∧ lucky_number_index d score < 9) ∧
    (generate_daily_prediction s d).isSome = true := by
  refine ⟨tithi_index_bounds d, nakshatra_index_bounds d, weekday_lt d, ?_, ?_⟩
  · unfold lucky_number_index
    omega
  · rw [generate_spec]
    rfl
